import Mathlib

/-!
Verification development for the python-wayland client runtime.

The definitions below are shallow embeddings of the functions in
src/wayland/protocol.py and src/wayland/client.py.  Bytes are modelled as
natural numbers below 256, byte strings as lists of bytes, Python dicts as
association lists in insertion order, and Python exceptions as explicit
outcome values.  Each definition carries a comment naming the source
function it embeds.
-/

namespace PyWayland

/-- Little-endian encoding of a 32-bit unsigned integer into four bytes, as
produced by struct.pack of format I on a little-endian host. -/
def toLE4 (n : Nat) : List Nat :=
  [n % 256, n / 256 % 256, n / 65536 % 256, n / 16777216 % 256]

/-- Little-endian decoding of the first four bytes of a buffer, as performed
by struct.unpack of format I.  Callers guard the case of fewer than four
bytes (struct.unpack raises there); the catch-all returns 0. -/
def fromLE4 : List Nat → Nat
  | b0 :: b1 :: b2 :: b3 :: _ => b0 + 256 * b1 + 65536 * b2 + 16777216 * b3
  | _ => 0

/-! ### Protocol catalogue loading (src/wayland/protocol.py, Protocol.__init__)

An interface is reduced to its name and version; the interfaces dict is an
association list in insertion order.  When a parent is supplied the source
runs `self.interfaces = parent.interfaces`, which aliases the parent dict,
so every insertion performed by the child constructor lands directly in the
parent mapping.  The first component of the result is the state of that
shared mapping when the constructor returns or raises; the second component
is `some name` when DuplicateInterfaceName(name) is raised. -/

/-- Embeds the interface loop of Protocol.__init__: for each interface
element build the Interface, raise DuplicateInterfaceName if its name is a
key of the (shared) interfaces dict, otherwise insert it. -/
def protocolAddInterfaces :
    List (String × Nat) → List (String × Nat) →
    List (String × Nat) × Option String
  | shared, [] => (shared, none)
  | shared, nv :: rest =>
    if (shared.lookup nv.1).isSome then (shared, some nv.1)
    else protocolAddInterfaces (shared ++ [nv]) rest

/-! ### Send path (src/wayland/client.py, _Display.flush) -/

/-- A queued outbound frame: its bytes and the list of fds to pass with it. -/
structure Frame where
  bytes : List Nat
  fds : List Nat
deriving DecidableEq

/-- Outcome of one sendmsg system call attempt. -/
inductive SendOutcome
  | ok
  | socketError (errnoVal : Nat)

/-- How a call to flush finished: returned True (queue emptied), returned
None (the would-block branch), or let a socket.error propagate. -/
inductive FlushEnd
  | returnedTrue
  | returnedNone
  | raised (errnoVal : Nat)
deriving DecidableEq

/-- Result of flush: the send queue afterwards, the fds closed after
successful sends, the frames actually handed to sendmsg, and how the call
finished. -/
structure FlushResult where
  sendQueue : List Frame
  closedFds : List Nat
  sentFrames : List Frame
  ending : FlushEnd
deriving DecidableEq

/-- Embeds the test `socket.errno == 11` in the except clause of flush.  In
the source, `socket.errno` is the errno module object that socket.py
imports and re-exports; it is not the errno of the caught exception (the
bound exception `e` is unused there), and a module object never compares
equal to the integer 11.  The comparison is therefore False for every
caught error.  (The recv method in the same file spells the intended test
`e.errno == 11`.) -/
def socketErrnoEq11 : Bool := false

/-- Embeds the while loop of _Display.flush.  `sock k` is the outcome of
the k-th sendmsg attempt.  Each iteration pops the head frame; on success
it closes the sent fds and continues; on socket.error it runs the guard
`socket.errno == 11` (see socketErrnoEq11): were the guard true it would
reinsert the frame at the head and return None, but as the guard is false
the exception propagates, with the popped frame already removed from the
queue. -/
def flushLoop (sock : Nat → SendOutcome) :
    Nat → List Frame → List Nat → List Frame → FlushResult
  | _, [], closed, sent => ⟨[], closed, sent, .returnedTrue⟩
  | k, f :: rest, closed, sent =>
    match sock k with
    | .ok => flushLoop sock (k + 1) rest (closed ++ f.fds) (sent ++ [f])
    | .socketError e =>
      if socketErrnoEq11 then ⟨f :: rest, closed, sent, .returnedNone⟩
      else ⟨rest, closed, sent, .raised e⟩

/-- Embeds _Display.flush on a given send queue. -/
def flush (sock : Nat → SendOutcome) (queue : List Frame) : FlushResult :=
  flushLoop sock 0 queue [] []

/-! ### Event queues and dispatch_pending (src/wayland/client.py) -/

/-- An entry of an event queue: either a stored Exception instance (a
failure marker) or a (proxy, event, args) tuple; the proxy is identified by
its oid, the event by its number, and args are reduced to a list of
naturals, which is enough for the dispatch claims. -/
inductive QEntry
  | exc (msg : String)
  | ev (proxyOid : Nat) (eventNumber : Nat) (args : List Nat)
deriving DecidableEq

/-- How dispatch_pending finished: normal return, a failure marker raised,
or the IndexError from pop(0) on an empty list. -/
inductive DispatchEnd
  | normal
  | raisedExc (msg : String)
  | indexError
deriving DecidableEq

/-- Result of dispatch_pending: the dispatch_event invocations made in
order, the default queue afterwards, the passed queue afterwards, and how
the call finished. -/
structure DispatchResult where
  dispatched : List (Nat × Nat × List Nat)
  defaultQueueAfter : List QEntry
  queueAfter : List QEntry
  ending : DispatchEnd
deriving DecidableEq

/-- The body of the dispatch_pending loop when the queue variable aliases
the default queue (queue argument omitted, None, or empty): each iteration
pops the head of the default queue, raises it if it is an Exception, and
otherwise invokes proxy.dispatch_event. -/
def drainDefault :
    List QEntry → List (Nat × Nat × List Nat) × List QEntry × DispatchEnd
  | [] => ([], [], .normal)
  | .exc m :: rest => ([], rest, .raisedExc m)
  | .ev p n a :: rest =>
    let r := drainDefault rest
    ((p, n, a) :: r.1, r.2.1, r.2.2)

/-- The body of the dispatch_pending loop when the queue argument is a
non-empty queue distinct from the default queue.  The loop condition tests
that queue, but the body still runs `self._default_queue.pop(0)`, so the
passed queue is never drained: the loop consumes default-queue entries
until the default queue is empty and then pop(0) raises IndexError. -/
def drainOther :
    List QEntry → List (Nat × Nat × List Nat) × List QEntry × DispatchEnd
  | [] => ([], [], .indexError)
  | .exc m :: rest => ([], rest, .raisedExc m)
  | .ev p n a :: rest =>
    let r := drainOther rest
    ((p, n, a) :: r.1, r.2.1, r.2.2)

/-- Embeds _Display.dispatch_pending.  `defq` is the default queue and
`qarg` the queue argument (`none` when omitted).  Python truthiness makes
`if not queue` select the default queue both for None and for an empty
list argument. -/
def dispatchPending (defq : List QEntry) (qarg : Option (List QEntry)) :
    DispatchResult :=
  match qarg with
  | none =>
    let r := drainDefault defq
    ⟨r.1, r.2.1, r.2.1, r.2.2⟩
  | some q =>
    if q = [] then
      let r := drainDefault defq
      ⟨r.1, r.2.1, r.2.1, r.2.2⟩
    else
      let r := drainOther defq
      ⟨r.1, r.2.1, q, r.2.2⟩

/-! ### Frame reassembly (src/wayland/client.py, _Display._decode) -/

/-- Result of the decode loop: the (oid, opcode, payload) events appended
to the target proxy queues in order, the bytes retained as the partial
frame buffer, whether the unknown-object branch raised AttributeError (in
the source that branch runs `obj.queue.append(UnknownObjectError(obj))`
with obj bound to None, so the attribute access on None raises and the
exception propagates out of _decode), and whether the fuel ran out (which
can only happen on a frame whose header size field is 0, where the source
loop makes no progress and never terminates). -/
structure DecodeResult where
  queuedEvents : List (Nat × Nat × List Nat)
  leftover : List Nat
  attributeErrorRaised : Bool
  fuelOut : Bool
deriving DecidableEq

/-- Embeds the while loop of _Display._decode.  `known oid` states whether
oid is a key of self.objects.  The loop runs while more than 8 bytes are
buffered; it reads the little-endian header (oid, sizeop) with
size = sizeop >>> 16 and op = sizeop &&& 0xffff, stops when fewer than
size bytes are available, and otherwise slices payload = data[8:size] and
continues with data[size:]. -/
def decodeLoop (known : Nat → Bool) : Nat → List Nat → DecodeResult
  | 0, data => ⟨[], data, false, true⟩
  | fuel + 1, data =>
    if 8 < data.length then
      let oid := fromLE4 (data.take 4)
      let sizeop := fromLE4 ((data.drop 4).take 4)
      let size := sizeop >>> 16
      if data.length < size then ⟨[], data, false, false⟩
      else
        let payload := (data.drop 8).take (size - 8)
        let rest := data.drop size
        if known oid then
          let r := decodeLoop known fuel rest
          ⟨(oid, sizeop &&& 0xffff, payload) :: r.queuedEvents,
            r.leftover, r.attributeErrorRaised, r.fuelOut⟩
        else ⟨[], rest, true, false⟩
    else ⟨[], data, false, false⟩

/-- Embeds _Display._decode: the retained partial buffer is prepended to
the newly received bytes and the loop runs; the fuel bound data.length + 1
is enough for every frame with a nonzero size field. -/
def decode (known : Nat → Bool) (pendingBuf newData : List Nat) :
    DecodeResult :=
  let data := pendingBuf ++ newData
  decodeLoop known (data.length + 1) data

/-! ### Object registry (src/wayland/client.py, _Display._get_new_oid and
_Display._delete_id) -/

/-- The fields of a ClientProxy instance that the registry touches: the
interface name and the oid attribute, which _delete_id sets to None. -/
structure ProxyM where
  iface : String
  oid : Option Nat
deriving DecidableEq

/-- The id-allocation and object-registry state of a _Display: the next
value the `_oids = iter(range(1, 0xff000000))` iterator will yield, the
`_reusable_oids` pile, and the `objects` dict as an association list in
insertion order. -/
structure ConnState where
  oidsNext : Nat
  reusableOids : List Nat
  objects : List (Nat × ProxyM)
deriving DecidableEq

/-- Embeds _Display._get_new_oid: pop from the reuse pile if it is
non-empty (Python list.pop takes the last element), otherwise take the
next iterator value.  (The iterator raises StopIteration at 0xff000000;
no claim depends on exhaustion, so the embedding just advances the
counter.) -/
def getNewOid (st : ConnState) : Nat × ConnState :=
  match st.reusableOids.getLast? with
  | some r => (r, { st with reusableOids := st.reusableOids.dropLast })
  | none => (st.oidsNext, { st with oidsNext := st.oidsNext + 1 })

/-- Removal of the binding of key i from the objects dict
(`del self.objects[id_]`). -/
def delKey (l : List (Nat × ProxyM)) (i : Nat) : List (Nat × ProxyM) :=
  l.filter (fun p => p.1 != i)

/-- Embeds _Display._delete_id: look up the proxy bound to the id (KeyError
when absent, modelled as none), set its oid attribute to None, delete the
binding, and push the id onto the reuse pile when it is below 0xff000000.
The second component of the result is the mutated proxy object, which the
caller may still hold a reference to. -/
def deleteId (st : ConnState) (i : Nat) : Option (ConnState × ProxyM) :=
  match st.objects.lookup i with
  | none => none
  | some p =>
    some ({ st with
              objects := delKey st.objects i,
              reusableOids :=
                if i < 0xff000000 then st.reusableOids ++ [i]
                else st.reusableOids },
          { p with oid := none })

/-! ### The display error event (src/wayland/client.py, _error_event) -/

/-- Python values that can appear as arguments of the wl_display error
event: integers, strings and proxies (a proxy is shown as its interface
name and oid, following ClientProxy.__str__). -/
inductive PyVal
  | pint (n : ℤ)
  | pstr (s : String)
  | pproxy (iface : String) (oid : Nat)
deriving DecidableEq

/-- Python repr of such a value: repr of a string adds quotes, repr of a
ClientProxy is its __str__, which formats as interface(oid). -/
def pyRepr : PyVal → String
  | .pint n => toString n
  | .pstr s => "\x27" ++ s ++ "\x27"
  | .pproxy i o => i ++ "(" ++ toString o ++ ")"

/-- Python str of such a value: str of a str is itself, otherwise repr. -/
def pyStr : PyVal → String
  | .pstr s => s
  | v => pyRepr v

/-- Python str of a tuple of such values: parenthesised comma-separated
reprs of the elements, with the trailing comma of a one-element tuple. -/
def pyStrTuple (l : List PyVal) : String :=
  match l with
  | [x] => "(" ++ pyRepr x ++ ",)"
  | _ => "(" ++ String.intercalate ", " (l.map pyRepr) ++ ")"

/-- The four attributes of a DisplayError exception as _error_event builds
them.  Every field is a string because the source constructs the exception
as DisplayError(str(objs), str(code), "", str(message)). -/
structure DisplayErrorS where
  obj : String
  code : String
  codestr : String
  message : String
deriving DecidableEq

/-- Embeds the body of _Display._error_event: the slicing
`objs, (code, message) = args[:-2], args[-2:]` followed by
`raise DisplayError(str(objs), str(code), "", str(message))`.  The result
is the raised exception; none models the ValueError when args[-2:] does
not unpack into two values. -/
def errorEventBody (args : List PyVal) : Option DisplayErrorS :=
  match args.drop (args.length - 2) with
  | [code, message] =>
    some ⟨pyStrTuple (args.take (args.length - 2)), pyStr code, "",
          pyStr message⟩
  | _ => none

/-- Embeds the dispatch of the error event: the dispatcher entry is the
bound method _error_event and dispatch_event calls f(self, *args), so the
star-args of the method body collect the display proxy followed by the
three event arguments (object, code, message). -/
def errorEventDispatch (display objArg codeArg msgArg : PyVal) :
    Option DisplayErrorS :=
  errorEventBody [display, objArg, codeArg, msgArg]

/-! ### The fixed argument codec (src/wayland/protocol.py, Arg_fixed)

Python floats are modelled as rationals; every value the claims exercise
is an exact multiple of 1/256, for which float arithmetic in the source is
exact. -/

/-- Python int() applied to a rational: truncation toward zero. -/
def pyInt (q : ℚ) : ℤ := if q < 0 then ⌈q⌉ else ⌊q⌋

/-- Python v % 1.0 for a float v: the nonnegative fractional part
v - floor(v). -/
def pyFMod1 (q : ℚ) : ℚ := q - (⌊q⌋ : ℚ)

/-- Embeds Arg_fixed.marshal on an int argument: m = v << 8. -/
def argFixedMarshalInt (v : ℤ) : ℤ := v <<< (8 : ℤ)

/-- Embeds Arg_fixed.marshal on a float argument:
m = (int(v) << 8) + int((v % 1.0) * 256). -/
def argFixedMarshalFloat (v : ℚ) : ℤ :=
  pyInt v <<< (8 : ℤ) + pyInt (pyFMod1 v * 256)

/-- struct.pack of format i: defined for -2^31 <= m < 2^31 (struct.error
otherwise, modelled as none), yielding the little-endian bytes of the
two's-complement representative. -/
def packSigned32 (m : ℤ) : Option (List Nat) :=
  if -(2 ^ 31) ≤ m ∧ m < 2 ^ 31 then some (toLE4 (m % 2 ^ 32).toNat)
  else none

/-- struct.unpack of format i on four bytes: the unsigned little-endian
value reinterpreted as a signed 32-bit integer. -/
def unpackSigned32 (b : List Nat) : ℤ :=
  let u := fromLE4 b
  if u < 2 ^ 31 then (u : ℤ) else (u : ℤ) - 2 ^ 32

/-- Embeds Arg_fixed.unmarshal on the unpacked signed value m:
float(m >> 8) + ((m & 0xff) / 256).  The shift on a Python int is
arithmetic, and m & 0xff on a two's-complement integer is the nonnegative
residue of m modulo 256, which is Int emod here. -/
def argFixedUnmarshal (b : List Nat) : ℚ :=
  let m := unpackSigned32 b
  ((m >>> (8 : ℤ) : ℤ) : ℚ) + ((m % 256 : ℤ) : ℚ) / 256

/-! ### The string argument codec (src/wayland/protocol.py, Arg_string) -/

/-- A Python exception raised by a codec path. -/
inductive PyErr
  | assertionError
  | structError
  | nameError
  | unicodeDecodeError
deriving DecidableEq

/-- Whether a byte lies in the closed range from lo to hi. -/
def inRange (lo hi b : Nat) : Bool := decide (lo ≤ b ∧ b ≤ hi)

/-- A UTF-8 continuation byte. -/
def isCont (b : Nat) : Bool := inRange 0x80 0xbf b

/-- Whether a byte string is well-formed UTF-8 (shortest form only, no
surrogates, nothing above U+10FFFF; the sequence table of the Unicode
standard), which is exactly what the strict utf-8 codec behind Python
bytes.decode accepts.  bytes.decode raises UnicodeDecodeError iff this is
false. -/
def utf8Valid : List Nat → Bool
  | [] => true
  | b :: rest =>
    if b ≤ 0x7f then utf8Valid rest
    else if inRange 0xc2 0xdf b then
      match rest with
      | c1 :: r => isCont c1 && utf8Valid r
      | [] => false
    else if b = 0xe0 then
      match rest with
      | c1 :: c2 :: r => inRange 0xa0 0xbf c1 && isCont c2 && utf8Valid r
      | _ => false
    else if inRange 0xe1 0xec b then
      match rest with
      | c1 :: c2 :: r => isCont c1 && isCont c2 && utf8Valid r
      | _ => false
    else if b = 0xed then
      match rest with
      | c1 :: c2 :: r => inRange 0x80 0x9f c1 && isCont c2 && utf8Valid r
      | _ => false
    else if inRange 0xee 0xef b then
      match rest with
      | c1 :: c2 :: r => isCont c1 && isCont c2 && utf8Valid r
      | _ => false
    else if b = 0xf0 then
      match rest with
      | c1 :: c2 :: c3 :: r =>
        inRange 0x90 0xbf c1 && isCont c2 && isCont c3 && utf8Valid r
      | _ => false
    else if inRange 0xf1 0xf3 b then
      match rest with
      | c1 :: c2 :: c3 :: r =>
        isCont c1 && isCont c2 && isCont c3 && utf8Valid r
      | _ => false
    else if b = 0xf4 then
      match rest with
      | c1 :: c2 :: c3 :: r =>
        inRange 0x80 0x8f c1 && isCont c2 && isCont c3 && utf8Valid r
      | _ => false
    else false

/-- Embeds Arg_string.unmarshal over a byte cursor.  The value is returned
as the raw utf-8 bytes read for the string (the str decoding itself
consumes no further cursor bytes).  struct.unpack of format I raises when
fewer than four bytes remain; `assert l > 0` fails on a zero length word;
then the decoder reads l - 1 string bytes and decodes them as strict
utf-8, which raises UnicodeDecodeError on ill-formed bytes *before* the
padding read, and only on success reads the 4 - ((l - 1) % 4) padding
bytes (BytesIO read returns at most what remains).  An error carries the
bytes still unconsumed at the raise, so the cursor position at every exit
is part of the result. -/
def argStringUnmarshal (data : List Nat) :
    Except (PyErr × List Nat) (List Nat × List Nat) :=
  if data.length < 4 then .error (.structError, data.drop 4)
  else
    let l := fromLE4 (data.take 4)
    let r1 := data.drop 4
    if l = 0 then .error (.assertionError, r1)
    else
      let l2 := l - 1
      let s := r1.take l2
      let r2 := r1.drop l2
      if utf8Valid s then .ok (s, r2.drop (4 - l2 % 4))
      else .error (.unicodeDecodeError, r2)

/-! ### The array argument codec (src/wayland/protocol.py, Arg_array) -/

/-- Embeds Arg_array.marshal.  After struct.pack of the length the body
builds the tuple (pack, estr, padding), but the name estr is not defined
anywhere in the module (it is a local of Arg_string.marshal), so every
call raises NameError before any bytes are produced. -/
def argArrayMarshal (_v : List Nat) : Except PyErr (List Nat) :=
  .error .nameError

/-- Embeds Arg_array.unmarshal over a byte cursor: read the u32 length l,
read l bytes, then skip 3 - ((l - 1) % 4) bytes of padding when that count
is nonzero; the subtraction and remainder are Python int operations, so
the remainder is the nonnegative residue (Int emod). -/
def argArrayUnmarshal (data : List Nat) :
    Except PyErr (List Nat × List Nat) :=
  if data.length < 4 then .error .structError
  else
    let l := fromLE4 (data.take 4)
    let r1 := data.drop 4
    let v := r1.take l
    let r2 := r1.drop l
    let pad := (3 - ((l : ℤ) - 1) % 4).toNat
    .ok (v, if pad ≠ 0 then r2.drop pad else r2)

/-- Modelled from the spec: the array encoding the spec defines in place of
the unreachable source encoder, namely the u32 byte length, the raw bytes,
and zero padding to a 4-byte boundary with no implicit NUL terminator. -/
def specArrayEncode (v : List Nat) : List Nat :=
  toLE4 v.length ++ v ++ List.replicate ((4 - v.length % 4) % 4) 0

/-! ### Helper lemmas -/

theorem fromLE4_toLE4 (n : Nat) (h : n < 2 ^ 32) : fromLE4 (toLE4 n) = n := by
  simp only [toLE4, fromLE4]
  omega

theorem fromLE4_short (bs : List Nat) (h : bs.length < 4) : fromLE4 bs = 0 := by
  cases bs with
  | nil => rfl
  | cons a t =>
    cases t with
    | nil => rfl
    | cons b t2 =>
      cases t2 with
      | nil => rfl
      | cons c t3 =>
        cases t3 with
        | nil => rfl
        | cons d t4 => exact absurd h (by simp)

theorem lookup_delKey (l : List (Nat × ProxyM)) (i : Nat) :
    (delKey l i).lookup i = none := by
  induction l with
  | nil => rfl
  | cons hd tl ih =>
    rw [delKey, List.filter_cons]
    rw [delKey] at ih
    by_cases h : hd.1 = i
    · have hb : (hd.1 != i) = false := by simp [h]
      rw [hb, if_neg (by simp)]
      exact ih
    · have hb : (hd.1 != i) = true := by simp [h]
      rw [hb, if_pos rfl]
      obtain ⟨k, pv⟩ := hd
      have hik : (i == k) = false := by
        simp only [beq_eq_false_iff_ne, ne_eq]
        exact fun hc => h (by simpa using hc.symm)
      rw [List.lookup_cons, hik]
      exact ih

/-! ### Claim theorems -/

/-- C1: the claim states that when constructing a child protocol hits a
duplicate interface name, the parent mapping is unchanged at the point the
error is raised.  The source aliases the parent dict and inserts into it
as it parses, so a child whose interface list is xdg_wm_base followed by a
duplicate of wl_display raises DuplicateInterfaceName with xdg_wm_base
already inserted into the parent mapping: the mapping at the raise differs
from its pre-attempt state. -/
theorem C1_duplicate_interface_mutates_parent :
    protocolAddInterfaces [("wl_display", 1)]
        [("xdg_wm_base", 3), ("wl_display", 2)] =
      ([("wl_display", 1), ("xdg_wm_base", 3)], some "wl_display") ∧
    ([("wl_display", 1), ("xdg_wm_base", 3)] : List (String × Nat)) ≠
      [("wl_display", 1)] := by
  exact ⟨rfl, by decide⟩

/-- C2: the claim states that a would-block send failure makes flush push
the frame back at the head and return the partial indication without
raising.  In the source the would-block guard is `socket.errno == 11`,
which compares the errno module with 11 and is always false, so a sendmsg
failure with errno 11 propagates as an exception and the popped frame is
lost from the queue; the success path does close the sent fds. -/
theorem C2_flush_would_block_raises :
    flush (fun _ => .socketError 11) [⟨[1, 0, 0, 0, 0, 0, 12, 0], [5]⟩] =
      ⟨[], [], [], .raised 11⟩ ∧
    flush (fun _ => .ok)
        [⟨[1, 0, 0, 0, 0, 0, 12, 0], [5]⟩,
         ⟨[2, 0, 0, 0, 0, 0, 12, 0], [6, 7]⟩] =
      ⟨[], [5, 6, 7],
       [⟨[1, 0, 0, 0, 0, 0, 12, 0], [5]⟩,
        ⟨[2, 0, 0, 0, 0, 0, 12, 0], [6, 7]⟩], .returnedTrue⟩ := by
  exact ⟨rfl, rfl⟩

/-- C3: the claim states that dispatch_pending drains the queue it is
given.  The source loop tests the given queue but pops from the default
queue, so with a retarget queue holding one event and an empty default
queue the call raises IndexError and dispatches nothing, and with a
non-empty default queue it dispatches the default-queue entries while the
given queue keeps its entry. -/
theorem C3_dispatch_pending_pops_default_queue :
    dispatchPending [] (some [QEntry.ev 5 0 [42]]) =
      ⟨[], [], [QEntry.ev 5 0 [42]], .indexError⟩ ∧
    dispatchPending [QEntry.ev 9 1 []] (some [QEntry.ev 5 0 [42]]) =
      ⟨[(9, 1, [])], [], [QEntry.ev 5 0 [42]], .indexError⟩ := by
  exact ⟨rfl, rfl⟩

/-- C4: the claim states that a frame is decoded as soon as all of its
bytes are buffered, including a frame whose size field is 8 when exactly
those 8 bytes are present.  The source loop runs only while more than 8
bytes are buffered, so the complete 8-byte frame for oid 3 with size 8 and
opcode 0 is left in the partial buffer and no event is queued; only after
a further byte arrives is the frame decoded. -/
theorem C4_size8_frame_not_decoded_when_exactly_buffered :
    decode (fun _ => true) [] (toLE4 3 ++ toLE4 0x00080000) =
      ⟨[], toLE4 3 ++ toLE4 0x00080000, false, false⟩ ∧
    decode (fun _ => true) (toLE4 3 ++ toLE4 0x00080000) [0] =
      ⟨[(3, 0, [])], [0], false, false⟩ := by
  exact ⟨rfl, rfl⟩

/-- C5: the claim states that a complete frame for an unregistered object
id makes decode append an unknown-object failure marker to the default
queue.  In the source the unknown-object branch evaluates obj.queue with
obj bound to None, so the call raises AttributeError instead of queueing a
marker: decoding a 12-byte frame for the absent oid 999 against a registry
that only knows oid 1 queues nothing and raises. -/
theorem C5_unknown_object_raises_attribute_error :
    decode (fun oid => oid == 1) []
        (toLE4 999 ++ toLE4 0x000c0000 ++ toLE4 7) =
      ⟨[], [], true, false⟩ := by
  rfl

/-- C6: the claim states that the fixed encoding of x is floor(x * 256)
and that decode inverts encode within 1/256.  For x = -1/4 the source
encode computes int(-0.25) = 0 (truncation toward zero, not floor) plus
int((-0.25 % 1.0) * 256) = 192, so the wire value is 192 where
floor(-0.25 * 256) = -64; decoding those bytes yields 3/4, a full unit
away from -1/4. -/
theorem C6_fixed_negative_fraction_misencoded :
    argFixedMarshalFloat (-1/4) = 192 ∧
    ⌊((-1 : ℚ)/4) * 256⌋ = -64 ∧
    packSigned32 (argFixedMarshalFloat (-1/4)) = some [192, 0, 0, 0] ∧
    argFixedUnmarshal [192, 0, 0, 0] = 3/4 ∧
    ¬ |argFixedUnmarshal [192, 0, 0, 0] - (-1/4)| ≤ 1/256 := by
  have hfloor : ⌊((-1 : ℚ)/4)⌋ = -1 := by norm_num
  have hceil : ⌈((-1 : ℚ)/4)⌉ = 0 := by norm_num
  have hlt : ((-1 : ℚ)/4) < 0 := by norm_num
  have hfr : pyFMod1 (-1/4) * 256 = 192 := by
    rw [pyFMod1, hfloor]
    norm_num
  have hm : argFixedMarshalFloat (-1/4) = 192 := by
    rw [argFixedMarshalFloat, hfr]
    rw [pyInt, pyInt, if_pos hlt, if_neg (by norm_num), hceil]
    norm_num
  have hu : argFixedUnmarshal [192, 0, 0, 0] = 3/4 := by
    rw [argFixedUnmarshal]
    have h1 : unpackSigned32 [192, 0, 0, 0] = 192 := by decide
    rw [h1]
    have h2 : ((192 : ℤ) >>> (8 : ℤ)) = 0 := by decide
    have h3 : ((192 : ℤ) % 256) = 192 := by decide
    rw [h2, h3]
    norm_num
  refine ⟨hm, by norm_num, ?_, hu, ?_⟩
  · rw [hm]
    decide
  · rw [hu]
    norm_num

/-- C7: the claim states that the display-error failure carries the error
event arguments verbatim: the offending proxy itself, the integer code,
and the message string.  The source handler receives the display proxy
prepended to the event arguments, slices off the last two, and builds
DisplayError(str(objs), str(code), "", str(message)): the object field
becomes the string form of the two-element tuple (display, object) and the
code becomes the string "2" rather than the integer 2; only the message
survives verbatim. -/
theorem C7_error_event_stringifies_args :
    errorEventDispatch (.pproxy "wl_display" 1) (.pproxy "wl_display" 1)
        (.pint 2) (.pstr "no memory") =
      some ⟨"(wl_display(1), wl_display(1))", "2", "", "no memory"⟩ ∧
    pyStr (.pproxy "wl_display" 1) ≠ "(wl_display(1), wl_display(1))" := by
  exact ⟨rfl, by decide⟩

/-- C8: after _delete_id(i) on a registry that binds i to a proxy, looking
up i yields nothing, the proxy that bore i has its oid attribute cleared,
and when i is below 0xFF000000 it is pushed onto the reuse pile so that
the next allocation returns i again. -/
theorem C8_delete_id_frees_and_recycles (st : ConnState) (i : Nat)
    (p : ProxyM) (h : st.objects.lookup i = some p) :
    ∃ st2 p2, deleteId st i = some (st2, p2) ∧
      st2.objects.lookup i = none ∧
      p2.oid = none ∧
      (i < 0xff000000 →
        st2.reusableOids = st.reusableOids ++ [i] ∧ (getNewOid st2).1 = i) := by
  refine ⟨{ st with
              objects := delKey st.objects i,
              reusableOids :=
                if i < 0xff000000 then st.reusableOids ++ [i]
                else st.reusableOids },
          { p with oid := none }, ?_, ?_, rfl, ?_⟩
  · rw [deleteId, h]
  · exact lookup_delKey st.objects i
  · intro hi
    refine ⟨by simp [hi], ?_⟩
    simp [getNewOid, hi, List.getLast?_concat]

/-- Witness for C8 at a concrete registry: oid 2 is bound to a wl_surface
proxy, the reuse pile is empty, and the iterator is at 3. -/
theorem C8_delete_id_frees_and_recycles_witness :
    ((([(2, (⟨"wl_surface", some 2⟩ : ProxyM))] : List (Nat × ProxyM)).lookup 2) =
        some ⟨"wl_surface", some 2⟩) ∧
    (∃ st2 p2,
      deleteId ⟨3, [], [(2, ⟨"wl_surface", some 2⟩)]⟩ 2 = some (st2, p2) ∧
      st2.objects.lookup 2 = none ∧
      p2.oid = none ∧
      (2 < 0xff000000 →
        st2.reusableOids = ([] : List Nat) ++ [2] ∧ (getNewOid st2).1 = 2)) :=
  ⟨rfl, C8_delete_id_frees_and_recycles ⟨3, [], [(2, ⟨"wl_surface", some 2⟩)]⟩
          2 ⟨"wl_surface", some 2⟩ rfl⟩

/-- Decoding the spec-defined array encoding returns the original bytes
and leaves the trailing bytes for the next argument, for every array and
any trailing data. -/
theorem arrayUnmarshalSpecEncode (v tail : List Nat)
    (h : v.length < 2 ^ 32) :
    argArrayUnmarshal (specArrayEncode v ++ tail) = .ok (v, tail) := by
  have h4 : (toLE4 v.length).length = 4 := rfl
  set p := (4 - v.length % 4) % 4 with hp
  have hassoc :
      specArrayEncode v ++ tail =
        toLE4 v.length ++ (v ++ (List.replicate p 0 ++ tail)) := by
    simp [specArrayEncode, List.append_assoc]
  have htake :
      (toLE4 v.length ++ (v ++ (List.replicate p 0 ++ tail))).take 4 =
        toLE4 v.length := by
    conv_lhs => rw [← h4]
    exact List.take_left _ _
  have hdrop :
      (toLE4 v.length ++ (v ++ (List.replicate p 0 ++ tail))).drop 4 =
        v ++ (List.replicate p 0 ++ tail) := by
    conv_lhs => rw [← h4]
    exact List.drop_left _ _
  have hlen :
      ¬ (toLE4 v.length ++ (v ++ (List.replicate p 0 ++ tail))).length < 4 := by
    rw [List.length_append, h4]
    omega
  have hpadeq : (3 - ((v.length : ℤ) - 1) % 4).toNat = p := by
    rw [hp]
    omega
  have hdroprep : (List.replicate p 0 ++ tail).drop p = tail := by
    have h5 := List.drop_left (List.replicate p 0) tail
    rwa [List.length_replicate] at h5
  rw [hassoc, argArrayUnmarshal, if_neg hlen]
  simp only [htake, hdrop, fromLE4_toLE4 _ h, List.take_left, List.drop_left,
    hpadeq]
  by_cases hz : p = 0
  · simp [hz]
  · simp [hz, hdroprep]

/-- C9: the claim states decode(encode(b)) = b for the array argument at
lengths 0, 1, 3, 4, 5 and 17.  The source encoder is unreachable: its body
references the undefined name estr and raises NameError on every call, so
the round trip cannot even start.  The source decoder does invert the
spec-defined encoding (u32 length, raw bytes, zero padding to a 4-byte
boundary, no NUL) at those lengths. -/
theorem C9_array_marshal_unreachable :
    (∀ v : List Nat, argArrayMarshal v = .error .nameError) ∧
    (∀ v tail : List Nat,
      v.length = 0 ∨ v.length = 1 ∨ v.length = 3 ∨ v.length = 4 ∨
        v.length = 5 ∨ v.length = 17 →
      argArrayUnmarshal (specArrayEncode v ++ tail) = .ok (v, tail)) := by
  refine ⟨fun _ => rfl, fun v tail h => arrayUnmarshalSpecEncode v tail ?_⟩
  rcases h with h | h | h | h | h | h <;> omega

/-- Witness for C9 at the concrete array 10, 20, 30 with one trailing
byte. -/
theorem C9_array_marshal_unreachable_witness :
    (([10, 20, 30] : List Nat).length = 0 ∨
      ([10, 20, 30] : List Nat).length = 1 ∨
      ([10, 20, 30] : List Nat).length = 3 ∨
      ([10, 20, 30] : List Nat).length = 4 ∨
      ([10, 20, 30] : List Nat).length = 5 ∨
      ([10, 20, 30] : List Nat).length = 17) ∧
    argArrayUnmarshal (specArrayEncode [10, 20, 30] ++ [9]) =
      .ok ([10, 20, 30], [9]) :=
  ⟨by decide, C9_array_marshal_unreachable.2 [10, 20, 30] [9] (by decide)⟩

/-- C10 counterexample: the claim asserts that every length word l of at
least 1 makes the decoder consume exactly
4 + (l - 1) + (4 - ((l - 1) mod 4)) bytes.  On the input with length word
2 whose single string byte is 0xFF (not valid UTF-8), the decoder raises
UnicodeDecodeError with three bytes still unconsumed: it consumed only
4 + (2 - 1) = 5 bytes, not the 4 + 1 + 3 = 8 the claim requires, and
produced no value. -/
theorem C10_invalid_utf8_partial_consumption :
    argStringUnmarshal [2, 0, 0, 0, 0xff, 0, 0, 0] =
      .error (.unicodeDecodeError, [0, 0, 0]) ∧
    ([0, 0, 0] : List Nat) ≠
      ([2, 0, 0, 0, 0xff, 0, 0, 0] : List Nat).drop
        (4 + (2 - 1) + (4 - (2 - 1) % 4)) := by
  exact ⟨rfl, by decide⟩

/-- C10 amended: the string decoder requires the on-wire length word to be
at least 1 (a zero length word fails the assertion, so the empty string is
only representable with length word 1); for every length word l of at
least 1 whose l - 1 string bytes are valid UTF-8 the decoder consumes
exactly 4 + (l - 1) + (4 - ((l - 1) mod 4)) bytes, and when those bytes
are not valid UTF-8 it raises UnicodeDecodeError having consumed only
4 + (l - 1) bytes, because the strict utf-8 decode precedes the padding
read. -/
theorem C10_string_length_word :
    (∀ data : List Nat, 4 ≤ data.length → fromLE4 (data.take 4) = 0 →
      argStringUnmarshal data = .error (.assertionError, data.drop 4)) ∧
    (∀ (data : List Nat) (l : Nat), fromLE4 (data.take 4) = l → 1 ≤ l →
      utf8Valid ((data.drop 4).take (l - 1)) = true →
      argStringUnmarshal data =
        .ok ((data.drop 4).take (l - 1),
             data.drop (4 + (l - 1) + (4 - (l - 1) % 4)))) ∧
    (∀ (data : List Nat) (l : Nat), fromLE4 (data.take 4) = l → 1 ≤ l →
      utf8Valid ((data.drop 4).take (l - 1)) = false →
      argStringUnmarshal data =
        .error (.unicodeDecodeError, data.drop (4 + (l - 1)))) := by
  refine ⟨?_, ?_, ?_⟩
  · intro data hlen hzero
    rw [argStringUnmarshal, if_neg (by omega)]
    simp only [hzero]
    rfl
  · intro data l hl h1 hv
    have hlen : 4 ≤ data.length := by
      by_contra hc
      push_neg at hc
      have hshort : fromLE4 (data.take 4) = 0 := by
        apply fromLE4_short
        have := List.length_take 4 data
        omega
      omega
    rw [argStringUnmarshal, if_neg (by omega)]
    simp only [hl]
    rw [if_neg (by omega), if_pos hv]
    have hdd : ((data.drop 4).drop (l - 1)).drop (4 - (l - 1) % 4) =
        data.drop (4 + (l - 1) + (4 - (l - 1) % 4)) := by
      rw [List.drop_drop, List.drop_drop]
      congr 1
      omega
    rw [hdd]
  · intro data l hl h1 hv
    have hlen : 4 ≤ data.length := by
      by_contra hc
      push_neg at hc
      have hshort : fromLE4 (data.take 4) = 0 := by
        apply fromLE4_short
        have := List.length_take 4 data
        omega
      omega
    rw [argStringUnmarshal, if_neg (by omega)]
    simp only [hl]
    rw [if_neg (by omega), if_neg (by simp [hv])]
    have hdd : (data.drop 4).drop (l - 1) = data.drop (4 + (l - 1)) := by
      rw [List.drop_drop]
    rw [hdd]

/-- Witness for C10: a zero length word fails the assertion; the length
word 2 with the valid string byte 65 consumes eight bytes and leaves the
ninth; the length word 2 with the invalid string byte 0xC0 raises with the
last three bytes unconsumed. -/
theorem C10_string_length_word_witness :
    (4 ≤ ([0, 0, 0, 0] : List Nat).length ∧
      fromLE4 (([0, 0, 0, 0] : List Nat).take 4) = 0 ∧
      argStringUnmarshal [0, 0, 0, 0] =
        .error (.assertionError, ([0, 0, 0, 0] : List Nat).drop 4)) ∧
    (fromLE4 (([2, 0, 0, 0, 65, 0, 9, 9, 7] : List Nat).take 4) = 2 ∧
      1 ≤ 2 ∧
      utf8Valid ((([2, 0, 0, 0, 65, 0, 9, 9, 7] : List Nat).drop 4).take
        (2 - 1)) = true ∧
      argStringUnmarshal [2, 0, 0, 0, 65, 0, 9, 9, 7] =
        .ok ((([2, 0, 0, 0, 65, 0, 9, 9, 7] : List Nat).drop 4).take (2 - 1),
             ([2, 0, 0, 0, 65, 0, 9, 9, 7] : List Nat).drop
               (4 + (2 - 1) + (4 - (2 - 1) % 4)))) ∧
    (fromLE4 (([2, 0, 0, 0, 0xc0, 9, 9, 9] : List Nat).take 4) = 2 ∧
      1 ≤ 2 ∧
      utf8Valid ((([2, 0, 0, 0, 0xc0, 9, 9, 9] : List Nat).drop 4).take
        (2 - 1)) = false ∧
      argStringUnmarshal [2, 0, 0, 0, 0xc0, 9, 9, 9] =
        .error (.unicodeDecodeError,
                ([2, 0, 0, 0, 0xc0, 9, 9, 9] : List Nat).drop
                  (4 + (2 - 1)))) :=
  ⟨⟨by decide, by decide,
    C10_string_length_word.1 [0, 0, 0, 0] (by decide) (by decide)⟩,
   ⟨by decide, by decide, by decide,
    C10_string_length_word.2.1 [2, 0, 0, 0, 65, 0, 9, 9, 7] 2 (by decide)
      (by decide) (by decide)⟩,
   ⟨by decide, by decide, by decide,
    C10_string_length_word.2.2 [2, 0, 0, 0, 0xc0, 9, 9, 9] 2 (by decide)
      (by decide) (by decide)⟩⟩

end PyWayland
